import Mathlib

/-!
Verification development for the pixel-board shared middleware.

The transport handlers live in `src/app.py` and are embedded shallowly
below: each Flask handler becomes a pure Lean function from an explicit
system state and a request JSON object to a response (and a new state).
Fallible Python code (an uncaught `KeyError`, `ValueError` or an error
raised by a collaborator) is embedded with `Except`, whose `error`
constructor stands for an unhandled exception escaping the handler.

`ServerManager` (servers.py) and `BoardManager` (boards.py) are not part
of the sources; their operations are modelled from the specification and
carry a `Modelled from the spec:` note in their doc comment.
-/

namespace PixelBoard

/-- A JSON value as it appears in a request body or a response body.
Pixel matrices are the only nested arrays the handlers ever build, so
they get their own constructor (`jMatrix`) to keep equality decidable. -/
inductive JVal where
  | jNull : JVal
  | jBool : Bool → JVal
  | jInt : Int → JVal
  | jStr : String → JVal
  | jMatrix : List (List String) → JVal
  deriving DecidableEq, Repr

/-- A request JSON object: field name to value. -/
def Req : Type := List (String × JVal)

/-- Field lookup in a request object (Python `request.json[k]` when present). -/
def getField (req : Req) (k : String) : Option JVal :=
  (req.find? (fun p => decide (p.1 = k))).map (fun p => p.2)

/-- Python `k in request.json`. -/
def hasField (req : Req) (k : String) : Bool :=
  (getField req k).isSome

/-- The first required field missing from the request, in the order the
handlers check them (the loop over `requiredFields` in app.py). -/
def firstMissing (fields : List String) (req : Req) : Option String :=
  fields.find? (fun f => !(hasField req f))

/-- A registered pixel generator (PG) client. `lastAdmittedAt` is absent
until the first consumed admission. -/
structure Client where
  name : JVal
  author : JVal
  secret : JVal
  lastAdmittedAt : Option Nat
  deriving DecidableEq, Repr

/-- The canvas state owned by the BoardManager. `hash` is the content
fingerprint over `pixels`; `totalPixels` and `unnecessaryPixels` are the
running write statistics; `cooldownSeconds` the global rate. -/
structure BoardState where
  width : Nat
  height : Nat
  palette : List String
  pixels : List (List String)
  lastModify : List (List JVal)
  hash : String
  totalPixels : Nat
  unnecessaryPixels : Nat
  cooldownSeconds : Nat
  deriving DecidableEq, Repr

/-- The whole in-process state the handlers act on: client registry
(keyed by the id value the caller presents), board, the current clock
reading and the id-generation counter. -/
structure SysState where
  registry : List (JVal × Client)
  board : BoardState
  now : Nat
  nextId : Nat
  deriving DecidableEq, Repr

/-- Registry lookup by client id. -/
def lookupIn : List (JVal × Client) → JVal → Option Client
  | [], _ => none
  | p :: rest, id => if p.1 = id then some p.2 else lookupIn rest id

/-- Client record for an id, when registered. -/
def lookupClient (st : SysState) (id : JVal) : Option Client :=
  lookupIn st.registry id

/-- Record `lastAdmittedAt = now` for the given client id. -/
def consume (st : SysState) (id : JVal) : SysState :=
  { st with registry :=
      st.registry.map (fun p =>
        if p.1 = id then (p.1, { p.2 with lastAdmittedAt := some st.now }) else p) }

/-- The `lastAdmittedAt` of a client id in a state, when both exist. -/
def lastAdmittedOf (st : SysState) (id : JVal) : Option Nat :=
  match lookupClient st id with
  | none => none
  | some c => c.lastAdmittedAt

/-- Modelled from the spec: `ServerManager.use_server` lives in
servers.py, which is not among the sources. Per spec §4.1
`checkAdmission(id, consume)`: an unknown id is a distinct outcome
(app.py tests for it with a negative return value); a client with no
prior admission, or whose elapsed time since `lastAdmittedAt` reaches
`cooldownSeconds`, is Ready (returns 0) and, when `updateTimeout` is
true, atomically records `lastAdmittedAt = now`; otherwise the client is
CoolingDown and the positive remaining time is returned with no state
change regardless of `updateTimeout`. -/
def use_server (st : SysState) (id : JVal) (updateTimeout : Bool) : Int × SysState :=
  match lookupClient st id with
  | none => (-1, st)
  | some c =>
    match c.lastAdmittedAt with
    | none => if updateTimeout then (0, consume st id) else (0, st)
    | some t =>
      let elapsed : Nat := st.now - t
      if st.board.cooldownSeconds ≤ elapsed then
        if updateTimeout then (0, consume st id) else (0, st)
      else
        (((st.board.cooldownSeconds - elapsed : Nat) : Int), st)

/-- Modelled from the spec: `ServerManager.get_author_by_id`
(servers.py, not among the sources) returns the author recorded at
registration for a known id. -/
def get_author_by_id (st : SysState) (id : JVal) : Option JVal :=
  match lookupClient st id with
  | none => none
  | some c => some c.author

/-- Modelled from the spec: `ServerManager.add_server` (servers.py, not
among the sources) creates a Client with a freshly generated unique id,
no prior admission time, and returns the id (spec §4.1 register). -/
def add_server (st : SysState) (name author secret : JVal) : String × SysState :=
  let id := "pg-" ++ toString st.nextId
  (id,
   { st with
       registry := st.registry ++ [(JVal.jStr id,
         { name := name, author := author, secret := secret, lastAdmittedAt := none })],
       nextId := st.nextId + 1 })

/-- Modelled from the spec: `ServerManager.remove_server` (servers.py,
not among the sources) deletes the client; later lookups report
unknown (spec §4.1 remove). -/
def remove_server (st : SysState) (id : JVal) : SysState :=
  { st with registry := st.registry.filter (fun p => !(decide (p.1 = id))) }

/-- Modelled from the spec: `BoardManager.get_pixel_rate` (boards.py,
not among the sources) reads the single process-wide cooldown rate. -/
def get_pixel_rate (st : SysState) : Nat :=
  st.board.cooldownSeconds

/-- A response body: either a JSON object or a plain text page. -/
inductive Body where
  | json : List (String × JVal) → Body
  | text : String → Body
  deriving DecidableEq, Repr

/-- An HTTP response as the handlers build it. -/
structure Response where
  status : Nat
  body : Body
  headers : List (String × String)
  deriving DecidableEq, Repr

/-- Whether a JSON response body carries the given key. -/
def bodyHasKey (b : Body) (k : String) : Bool :=
  match b with
  | Body.json fields => fields.any (fun p => decide (p.1 = k))
  | Body.text _ => false

/-- The 400 response for a missing required field (same shape in every
handler of app.py). -/
def badRequestResp (f : String) : Response :=
  { status := 400,
    body := Body.json
      [("success", JVal.jBool false),
       ("error", JVal.jStr ("Required field `" ++ f ++ "` not present."))],
    headers := [] }

/-- The 401 response of `validate_PG_request`. -/
def unauthorizedResp : Response :=
  { status := 401,
    body := Body.json
      [("success", JVal.jBool false),
       ("error", JVal.jStr "401 Unauthorized")],
    headers := [] }

/-- The 429 response of `validate_PG_request`, carrying the global rate
and the remaining cooldown, plus a Retry-After header. -/
def rateLimitedResp (rate : Nat) (remaining : Int) : Response :=
  { status := 429,
    body := Body.json
      [("success", JVal.jBool false),
       ("error", JVal.jStr "429 Too Many Requests"),
       ("rate", JVal.jInt (rate : Int)),
       ("timeoutRemaining", JVal.jInt remaining)],
    headers := [("Retry-After", toString remaining)] }

/-- The two callers of `validate_PG_request` in app.py
(VALIDATE_PG_REQUEST_FOR_PIXEL_UPDATE and VALIDATE_PG_REQUEST_FOR_BOARD). -/
inductive RequestFor where
  | pixelUpdate : RequestFor
  | board : RequestFor
  deriving DecidableEq, Repr

/-- The required fields for each kind of request (app.py lines 88-91). -/
def requiredFieldsFor : RequestFor → List String
  | RequestFor.pixelUpdate => ["row", "col", "color", "id"]
  | RequestFor.board => ["id"]

/-- app.py `validate_PG_request`: checks the required fields in order,
then calls `use_server` (consuming for a pixel update, non-consuming for
a board read); a negative timeout means the server is unknown (401), a
nonzero one that it is cooling down (429). Returns the failure response
when the request is rejected, `none` when it may proceed, together with
the registry state after the (possibly consuming) admission check. -/
def validate_PG_request (requestFor : RequestFor) (req : Req) (st : SysState) :
    Option Response × SysState :=
  match firstMissing (requiredFieldsFor requestFor) req with
  | some f => (some (badRequestResp f), st)
  | none =>
    let idv := (getField req "id").getD JVal.jNull
    let r : Int × SysState := match requestFor with
      | RequestFor.pixelUpdate => use_server st idv true
      | RequestFor.board => use_server st idv false
    if r.1 < 0 then
      (some unauthorizedResp, r.2)
    else if r.1 ≠ 0 then
      (some (rateLimitedResp (get_pixel_rate r.2) r.1), r.2)
    else
      (none, r.2)

/-- The write statistics dictionary returned by the board update, as
app.py reads it (keys `pixels` and `unnecessaryPixels`). -/
structure WriteStats where
  pixels : Nat
  unnecessaryPixels : Nat
  deriving DecidableEq, Repr

/-- Modelled from the spec: the fingerprint is any stable,
order-sensitive hash of the full pixel matrix (spec §9); the
computation lives in boards.py, which is not among the sources. A
canonical injective encoding serves as the hash. -/
def fingerprint (pixels : List (List String)) : String :=
  toString (repr pixels)

/-- Write one cell of a matrix, leaving it unchanged when the row is
absent. -/
def setCell {α : Type} (m : List (List α)) (r c : Nat) (v : α) : List (List α) :=
  match m.get? r with
  | none => m
  | some rowList => m.set r (rowList.set c v)

/-- The current color of a cell, when in range. -/
def cellAt (m : List (List String)) (r c : Nat) : Option String :=
  match m.get? r with
  | none => none
  | some rowList => rowList.get? c

/-- The guard under which the board update fails: row or col outside
the grid, or the color not a member of the palette (spec §4.2). -/
def outOfRange (b : BoardState) (row col : Int) (color : JVal) : Bool :=
  row < 0 || (b.height : Int) ≤ row || col < 0 || (b.width : Int) ≤ col ||
    (match color with
     | JVal.jStr s => !(b.palette.contains s)
     | _ => true)

/-- Modelled from the spec: `BoardManager.update_current_board`
(boards.py, not among the sources) is spec §4.2 `applyWrite`: it fails
with `OutOfRange` when `row`/`col` fall outside the grid or `color` is
not in `palette`; otherwise it increments the running total of
successful writes, increments the unnecessary-write counter when the
cell already holds `color`, sets `pixels[row][col]` and
`lastModify[row][col]`, recomputes the fingerprint, and returns the
write statistics. -/
def update_current_board (b : BoardState) (row col : Int) (color author : JVal) :
    Except String (WriteStats × BoardState) :=
  match color with
  | JVal.jStr s =>
    if outOfRange b row col (JVal.jStr s) then
      Except.error "OutOfRange"
    else
      let r := row.toNat
      let c := col.toNat
      let total := b.totalPixels + 1
      let unnec :=
        if cellAt b.pixels r c = some s then b.unnecessaryPixels + 1
        else b.unnecessaryPixels
      let pixels2 := setCell b.pixels r c s
      Except.ok
        ({ pixels := total, unnecessaryPixels := unnec },
         { b with
             pixels := pixels2,
             lastModify := setCell b.lastModify r c author,
             hash := fingerprint pixels2,
             totalPixels := total,
             unnecessaryPixels := unnec })
  | _ => Except.error "OutOfRange"

/-- Accumulate a run of decimal digits; any other character fails. -/
def parseDigits : List Char → Nat → Option Nat
  | [], acc => some acc
  | c :: rest, acc =>
    if c.isDigit then parseDigits rest (acc * 10 + (c.toNat - 48)) else none

/-- Parse an optionally signed decimal integer, the grammar Python
`int(str)` accepts (modulo whitespace trimming and underscore
separators, which no claim exercises). -/
def parseIntChars : List Char → Option Int
  | [] => none
  | c :: rest =>
    if c = '-' then
      match rest with
      | [] => none
      | _ => (parseDigits rest 0).map (fun n => -(n : Int))
    else if c = '+' then
      match rest with
      | [] => none
      | _ => (parseDigits rest 0).map (fun n => (n : Int))
    else
      (parseDigits (c :: rest) 0).map (fun n => (n : Int))

/-- Python `int(x)` applied to a JSON value: an int stays itself, a bool
coerces to 0 or 1, a string parses as a signed decimal integer or
raises ValueError, anything else raises TypeError. `none` stands for the
raised error. -/
def pyIntCoerce : JVal → Option Int
  | JVal.jInt n => some n
  | JVal.jBool b => some (if b then 1 else 0)
  | JVal.jStr s => parseIntChars s.data
  | _ => none

/-- Modelled from the spec: `BoardManager.change_pixel_rate` (boards.py,
not among the sources) is spec §4.2 `setRate`: `newRate` must be a
non-negative integer, otherwise it fails with `InvalidArgument`; on
success the new rate takes effect immediately. -/
def change_pixel_rate (b : BoardState) (n : Int) : Except String BoardState :=
  if n < 0 then Except.error "InvalidArgument"
  else Except.ok { b with cooldownSeconds := n.toNat }

/-- The startup secrets allow-list: `none` when no secrets.json exists,
otherwise the loaded list. -/
def SecretsList : Type := Option (List String)

/-- Python membership of a request value in the loaded string set. -/
def secretMem (v : JVal) (l : List String) : Bool :=
  match v with
  | JVal.jStr s => l.contains s
  | _ => false

/-- app.py line 63, `if secrets and request.json["secret"] not in
secrets`: Python truthiness makes both an absent allow-list and an empty
one skip the check. -/
def secretRejected (sec : SecretsList) (v : JVal) : Bool :=
  match sec with
  | none => false
  | some l => !l.isEmpty && !(secretMem v l)

/-- app.py `PUT_register_pg`: field check, then the secrets gate, then
`add_server`; returns the fresh id. -/
def PUT_register_pg (st : SysState) (sec : SecretsList) (req : Req) :
    Response × SysState :=
  match firstMissing ["name", "author", "secret"] req with
  | some f => (badRequestResp f, st)
  | none =>
    let sv := (getField req "secret").getD JVal.jNull
    if secretRejected sec sv then
      ({ status := 401,
         body := Body.json
           [("success", JVal.jBool false),
            ("error", JVal.jStr "Secret was not in list of valid secrets!")],
         headers := [] }, st)
    else
      let r := add_server st ((getField req "name").getD JVal.jNull)
        ((getField req "author").getD JVal.jNull) sv
      ({ status := 200, body := Body.json [("id", JVal.jStr r.1)], headers := [] }, r.2)

/-- app.py `DELETE_remove_pg`: reads `request.json["id"]` with no field
check — a missing `id` raises an uncaught KeyError (the `error` case);
otherwise removes the server and returns success. -/
def DELETE_remove_pg (st : SysState) (req : Req) :
    Except (String × SysState) (Response × SysState) :=
  match getField req "id" with
  | none => Except.error ("KeyError: id", st)
  | some idv =>
    Except.ok
      ({ status := 200, body := Body.json [("success", JVal.jBool true)], headers := [] },
       remove_server st idv)

/-- The payload app.py emits on the `pixel update` socket topic. -/
structure Emit where
  row : JVal
  col : JVal
  color : JVal
  pixels : Nat
  unnecessaryPixels : Nat
  author : JVal
  deriving DecidableEq, Repr

/-- The 200 response of a successful pixel write (app.py lines 165-168):
only `success` and the current rate. -/
def writeSuccessResp (rate : Nat) : Response :=
  { status := 200,
    body := Body.json [("success", JVal.jBool true), ("rate", JVal.jInt (rate : Int))],
    headers := [] }

/-- app.py `PUT_update_pixel`: validate (field check then consuming
admission), then extract `row`, `col`, `color`, `id`, fetch the author,
apply the write to the board, emit the socket event, and answer with
`success` and the current rate. A failing board update propagates as an
unhandled error (app.py has no handler around it); non-integer
coordinates likewise raise. The `Option Emit` component records the
socket broadcast, `none` when the request was rejected before the
apply step. -/
def PUT_update_pixel (st : SysState) (req : Req) :
    Except (String × SysState) (Response × Option Emit × SysState) :=
  match validate_PG_request RequestFor.pixelUpdate req st with
  | (some resp, st1) => Except.ok (resp, none, st1)
  | (none, st1) =>
    let rowV := (getField req "row").getD JVal.jNull
    let colV := (getField req "col").getD JVal.jNull
    let colorV := (getField req "color").getD JVal.jNull
    let idv := (getField req "id").getD JVal.jNull
    let authorV := (get_author_by_id st1 idv).getD JVal.jNull
    match pyIntCoerce rowV, pyIntCoerce colV with
    | some row, some col =>
      match update_current_board st1.board row col colorV authorV with
      | Except.error e => Except.error (e, st1)
      | Except.ok r =>
        let st2 := { st1 with board := r.2 }
        Except.ok
          (writeSuccessResp (get_pixel_rate st2),
           some { row := rowV, col := colV, color := colorV,
                  pixels := r.1.pixels, unnecessaryPixels := r.1.unnecessaryPixels,
                  author := authorV },
           st2)
    | _, _ => Except.error ("TypeError", st1)

/-- The If-None-Match header presented by the caller: a star tag matches
any current representation; otherwise matching is membership of the
current ETag among the presented ones. -/
structure INM where
  star : Bool
  etags : List String
  deriving DecidableEq, Repr

/-- Werkzeug `if_none_match.contains(etag)`. -/
def inmContains (inm : INM) (etag : String) : Bool :=
  inm.star || inm.etags.contains etag

/-- app.py `return_board`: answer 304 with an empty body when the
presented fingerprint matches the board's current one, otherwise the
full pixel matrix with the current fingerprint as ETag. -/
def return_board (b : BoardState) (inm : INM) : Response :=
  if inmContains inm b.hash then
    { status := 304, body := Body.text "", headers := [] }
  else
    { status := 200,
      body := Body.json [("pixels", JVal.jMatrix b.pixels)],
      headers := [("ETag", b.hash)] }

/-- app.py `GET_pixels`: the admission-checked board fetch — runs
`validate_PG_request` for a board read (non-consuming) and, when it
passes, returns the board. -/
def GET_pixels (st : SysState) (req : Req) (inm : INM) : Response × SysState :=
  match validate_PG_request RequestFor.board req st with
  | (some resp, st1) => (resp, st1)
  | (none, st1) => (return_board st1.board inm, st1)

/-- app.py `GET_frontend_pixels`: returns the board with no client id
and no admission check at all. -/
def GET_frontend_pixels (st : SysState) (inm : INM) : Response × SysState :=
  (return_board st.board inm, st)

/-- Python `getenv("CHANGE_PIXEL_RATE_TOKEN") == request.json["token"]`:
an unset variable is None, equal only to JSON null; a set one is a
string, equal only to the same JSON string. -/
def tokenMatches (envToken : Option String) (tv : JVal) : Bool :=
  match envToken, tv with
  | none, JVal.jNull => true
  | some s, JVal.jStr t => decide (s = t)
  | _, _ => false

/-- app.py `POST_change_pixel_rate`: field check, token check, then
`int(request.json["new_rate"])` — a value `int` cannot coerce raises an
uncaught ValueError — passed to `change_pixel_rate`, whose failure is
likewise uncaught; on success a plain 200 "Success" page. -/
def POST_change_pixel_rate (st : SysState) (envToken : Option String) (req : Req) :
    Except (String × SysState) (Response × SysState) :=
  match firstMissing ["new_rate", "token"] req with
  | some f => Except.ok (badRequestResp f, st)
  | none =>
    if tokenMatches envToken ((getField req "token").getD JVal.jNull) then
      match pyIntCoerce ((getField req "new_rate").getD JVal.jNull) with
      | none => Except.error ("ValueError", st)
      | some n =>
        match change_pixel_rate st.board n with
        | Except.error e => Except.error (e, st)
        | Except.ok b2 => Except.ok
            ({ status := 200, body := Body.text "Success", headers := [] },
             { st with board := b2 })
    else
      Except.ok ({ status := 401, body := Body.text "Unauthorized", headers := [] }, st)

/-- The system state a handler leaves behind, whether it returned a
response or escaped with an unhandled error. -/
def stateAfter (r : Except (String × SysState) (Response × Option Emit × SysState)) :
    SysState :=
  match r with
  | Except.error p => p.2
  | Except.ok t => t.2.2

/-! ### Helper lemmas about the registry and the admission check -/

theorem lookupIn_map_ite (l : List (JVal × Client)) (id : JVal) (t : Nat) :
    lookupIn (l.map (fun p =>
        if p.1 = id then (p.1, { p.2 with lastAdmittedAt := some t }) else p)) id
      = Option.map (fun c => { c with lastAdmittedAt := some t }) (lookupIn l id) := by
  induction l with
  | nil => rfl
  | cons p rest ih =>
    by_cases hp : p.1 = id
    · simp [lookupIn, hp]
    · simp [lookupIn, hp, ih]

theorem lookupClient_consume (st : SysState) (id : JVal) :
    lookupClient (consume st id) id
      = Option.map (fun c => { c with lastAdmittedAt := some st.now }) (lookupClient st id) := by
  unfold lookupClient consume
  exact lookupIn_map_ite st.registry id st.now

theorem consume_board (st : SysState) (id : JVal) : (consume st id).board = st.board := rfl

theorem consume_now (st : SysState) (id : JVal) : (consume st id).now = st.now := rfl

/-- A consuming admission that admits (returns 0) has recorded
`lastAdmittedAt = now`, the core of the check-and-set semantics. -/
theorem use_server_consumed (st : SysState) (id : JVal)
    (h : (use_server st id true).1 = 0) :
    lastAdmittedOf (use_server st id true).2 id = some st.now := by
  unfold use_server at h ⊢
  cases hl : lookupClient st id with
  | none => simp [hl] at h
  | some c =>
    cases hla : c.lastAdmittedAt with
    | none =>
      simp only [hl, hla]
      simp [lastAdmittedOf, lookupClient_consume, hl]
    | some t =>
      simp only [hl, hla] at h ⊢
      by_cases hc : st.board.cooldownSeconds ≤ st.now - t
      · simp only [hc, if_true]
        simp [lastAdmittedOf, lookupClient_consume, hl]
      · simp only [hc, if_false] at h
        have hpos : 0 < st.board.cooldownSeconds - (st.now - t) :=
          Nat.sub_pos_of_lt (Nat.lt_of_not_le hc)
        omega

/-- A non-consuming admission check never changes the state. -/
theorem use_server_no_consume (st : SysState) (id : JVal) :
    (use_server st id false).2 = st := by
  unfold use_server
  cases hl : lookupClient st id with
  | none => rfl
  | some c =>
    cases hla : c.lastAdmittedAt with
    | none => simp [hl, hla]
    | some t =>
      simp only [hl, hla]
      by_cases hc : st.board.cooldownSeconds ≤ st.now - t
      · simp [hc]
      · simp [hc]

/-- When the pixel-update validation lets the request through, the
consuming admission check has already recorded `lastAdmittedAt = now`
for the requesting client in the state it hands on. -/
theorem validate_pixelUpdate_consumed (st : SysState) (req : Req)
    (h : (validate_PG_request RequestFor.pixelUpdate req st).1 = none) :
    lastAdmittedOf ((validate_PG_request RequestFor.pixelUpdate req st).2)
      ((getField req "id").getD JVal.jNull) = some st.now := by
  unfold validate_PG_request at h ⊢
  cases hf : firstMissing (requiredFieldsFor RequestFor.pixelUpdate) req with
  | some f => simp [hf] at h
  | none =>
    simp only [hf] at h ⊢
    by_cases h1 : (use_server st ((getField req "id").getD JVal.jNull) true).1 < 0
    · simp [h1] at h
    · by_cases h2 : (use_server st ((getField req "id").getD JVal.jNull) true).1 = 0
      · simp [h1, h2]
        exact use_server_consumed st _ h2
      · simp [h1, h2] at h

/-- The apply step and the socket emit never touch the registry: the
state a pixel-update request leaves behind has the registry produced by
the admission check, whether the apply step succeeded or raised. -/
theorem stateAfter_registry_eq (st : SysState) (req : Req) (st1 : SysState)
    (h : validate_PG_request RequestFor.pixelUpdate req st = (none, st1)) :
    (stateAfter (PUT_update_pixel st req)).registry = st1.registry := by
  unfold PUT_update_pixel
  rw [h]
  cases hr : pyIntCoerce ((getField req "row").getD JVal.jNull) with
  | none => simp [stateAfter, hr]
  | some row =>
    cases hc : pyIntCoerce ((getField req "col").getD JVal.jNull) with
    | none => simp [stateAfter, hr, hc]
    | some col =>
      cases hu : update_current_board st1.board row col
          ((getField req "color").getD JVal.jNull)
          ((get_author_by_id st1 ((getField req "id").getD JVal.jNull)).getD JVal.jNull) with
      | error e => simp [stateAfter, hr, hc, hu]
      | ok r => simp [stateAfter, hr, hc, hu]

/-! ### Claim theorems -/

/-- Claim C1: for every pixel-write request, the client's cooldown slot is
consumed (`lastAdmittedAt` is updated to the current time) before the
write is applied to the board: the handler runs field validation, then
the consuming admission check, and only then the board update, so the
state handed to the apply step already records the admission, and the
state left behind by the handler — even when the apply step fails —
still records it. -/
theorem c1_cooldown_consumed_before_apply (st : SysState) (req : Req)
    (h : (validate_PG_request RequestFor.pixelUpdate req st).1 = none) :
    lastAdmittedOf ((validate_PG_request RequestFor.pixelUpdate req st).2)
        ((getField req "id").getD JVal.jNull) = some st.now
    ∧ lastAdmittedOf (stateAfter (PUT_update_pixel st req))
        ((getField req "id").getD JVal.jNull) = some st.now := by
  have h1 := validate_pixelUpdate_consumed st req h
  refine ⟨h1, ?_⟩
  have hpair : validate_PG_request RequestFor.pixelUpdate req st
      = (none, (validate_PG_request RequestFor.pixelUpdate req st).2) := by
    rcases hv : validate_PG_request RequestFor.pixelUpdate req st with ⟨ov, s⟩
    rw [hv] at h
    simp at h
    rw [h]
  have hreg := stateAfter_registry_eq st req _ hpair
  unfold lastAdmittedOf lookupClient at h1 ⊢
  rw [hreg]
  exact h1

/-- Concrete 2x2 board used by the claim witnesses. -/
def wBoard : BoardState :=
  { width := 2, height := 2, palette := ["white", "red", "blue"],
    pixels := [["white", "white"], ["white", "white"]],
    lastModify := [[JVal.jNull, JVal.jNull], [JVal.jNull, JVal.jNull]],
    hash := fingerprint [["white", "white"], ["white", "white"]],
    totalPixels := 0, unnecessaryPixels := 0, cooldownSeconds := 5 }

/-- Concrete client that is Ready (no prior admission). -/
def wClient : Client :=
  { name := JVal.jStr "pg one", author := JVal.jStr "alice", secret := JVal.jStr "s3",
    lastAdmittedAt := none }

/-- Concrete state for the C1 witness. -/
def c1St : SysState :=
  { registry := [(JVal.jStr "7", wClient)], board := wBoard, now := 100, nextId := 1 }

/-- Concrete well-formed pixel-update request for the C1 witness. -/
def c1Req : Req :=
  [("row", JVal.jInt 0), ("col", JVal.jInt 1), ("color", JVal.jStr "red"),
   ("id", JVal.jStr "7")]

/-- Witness for C1 at a concrete admitted request. -/
theorem c1_witness :
    (validate_PG_request RequestFor.pixelUpdate c1Req c1St).1 = none ∧
    lastAdmittedOf (stateAfter (PUT_update_pixel c1St c1Req)) (JVal.jStr "7") = some 100 :=
  ⟨by decide, (c1_cooldown_consumed_before_apply c1St c1Req (by decide)).2⟩

/-- The response a handler run produced, when it did not raise. -/
def respOf (r : Except (String × SysState) (Response × Option Emit × SysState)) :
    Option Response :=
  match r with
  | Except.ok t => some t.1
  | Except.error _ => none

/-- A successful board update returns exactly the counters it stored,
and leaves the global rate untouched. -/
theorem update_current_board_stats (b : BoardState) (row col : Int) (color author : JVal)
    (r : WriteStats × BoardState)
    (h : update_current_board b row col color author = Except.ok r) :
    r.1.pixels = r.2.totalPixels ∧ r.1.unnecessaryPixels = r.2.unnecessaryPixels ∧
    r.2.cooldownSeconds = b.cooldownSeconds := by
  unfold update_current_board at h
  cases color with
  | jStr s =>
    by_cases ho : outOfRange b row col (JVal.jStr s) = true
    · simp [ho] at h
    · simp only [Bool.not_eq_true] at ho
      simp [ho] at h
      rw [← h]
      exact ⟨rfl, rfl, rfl⟩
  | jNull => simp at h
  | jBool bb => simp at h
  | jInt n => simp at h
  | jMatrix m => simp at h

/-- Concrete state for the C2 run: client "2" is Ready on the 2x2 board. -/
def c2St : SysState :=
  { registry := [(JVal.jStr "2", wClient)], board := wBoard, now := 50, nextId := 1 }

/-- Concrete in-bounds pixel-update request for C2. -/
def c2Req : Req :=
  [("row", JVal.jInt 1), ("col", JVal.jInt 0), ("color", JVal.jStr "blue"),
   ("id", JVal.jStr "2")]

/-- Counterexample for C2: the write at (1,0,"blue") is admitted and applied
(the run returns a 200 success response), yet the response body is
exactly `success` and `rate` — it carries neither the total-writes
counter nor the unnecessary-writes counter, refuting the claim that the
caller receives the current write statistics. -/
theorem c2_counterexample :
    respOf (PUT_update_pixel c2St c2Req) = some (writeSuccessResp 5)
    ∧ bodyHasKey (writeSuccessResp 5).body "pixels" = false
    ∧ bodyHasKey (writeSuccessResp 5).body "unnecessaryPixels" = false
    ∧ bodyHasKey (writeSuccessResp 5).body "stats" = false := by decide

/-- Claim C2 (amended): for every successfully admitted and applied pixel
write, the HTTP response is a success outcome carrying only the success
flag and the current global rate; the write statistics
(`pixels`/`unnecessaryPixels`) travel in the socket broadcast event, not
in the response. -/
theorem c2_success_carries_rate_stats_on_socket (st : SysState) (req : Req)
    (resp : Response) (e : Emit) (st2 : SysState)
    (h : PUT_update_pixel st req = Except.ok (resp, some e, st2)) :
    resp = writeSuccessResp st2.board.cooldownSeconds
    ∧ e.pixels = st2.board.totalPixels
    ∧ e.unnecessaryPixels = st2.board.unnecessaryPixels := by
  unfold PUT_update_pixel at h
  rcases hv : validate_PG_request RequestFor.pixelUpdate req st with ⟨ov, st1⟩
  rw [hv] at h
  cases ov with
  | some resp0 => simp at h
  | none =>
    cases hr : pyIntCoerce ((getField req "row").getD JVal.jNull) with
    | none => simp [hr] at h
    | some row =>
      cases hc : pyIntCoerce ((getField req "col").getD JVal.jNull) with
      | none => simp [hr, hc] at h
      | some col =>
        cases hu : update_current_board st1.board row col
            ((getField req "color").getD JVal.jNull)
            ((get_author_by_id st1 ((getField req "id").getD JVal.jNull)).getD JVal.jNull) with
        | error err => simp [hr, hc, hu] at h
        | ok r =>
          simp [hr, hc, hu] at h
          obtain ⟨hresp, hemit, hst⟩ := h
          obtain ⟨hs1, hs2, hs3⟩ := update_current_board_stats _ _ _ _ _ _ hu
          subst hresp hemit
          constructor
          · rw [← hst]
            simp [get_pixel_rate]
          · rw [← hst]
            simp [hs1, hs2]

/-- The socket payload of the concrete C2 run. -/
def c2Emit : Emit :=
  { row := JVal.jInt 1, col := JVal.jInt 0, color := JVal.jStr "blue",
    pixels := 1, unnecessaryPixels := 0, author := JVal.jStr "alice" }

/-- The state the concrete C2 run leaves behind. -/
def c2StAfter : SysState :=
  { registry := [(JVal.jStr "2", { wClient with lastAdmittedAt := some 50 })],
    board :=
      { wBoard with
          pixels := [["white", "white"], ["blue", "white"]],
          lastModify := [[JVal.jNull, JVal.jNull], [JVal.jStr "alice", JVal.jNull]],
          hash := fingerprint [["white", "white"], ["blue", "white"]],
          totalPixels := 1 },
    now := 50, nextId := 1 }

/-- Witness for the amended C2 at the concrete run. -/
theorem c2_witness :
    PUT_update_pixel c2St c2Req = Except.ok (writeSuccessResp 5, some c2Emit, c2StAfter)
    ∧ writeSuccessResp 5 = writeSuccessResp c2StAfter.board.cooldownSeconds
    ∧ c2Emit.pixels = c2StAfter.board.totalPixels :=
  have h : PUT_update_pixel c2St c2Req
      = Except.ok (writeSuccessResp 5, some c2Emit, c2StAfter) := by rfl
  ⟨h, (c2_success_carries_rate_stats_on_socket c2St c2Req _ _ _ h).1,
      (c2_success_carries_rate_stats_on_socket c2St c2Req _ _ _ h).2.1⟩

/-- Claim C3: for a pixel-write request with all fields present, an unknown
client id makes the admission check answer Unauthorized (401), and a
cooling-down client (admitted `t` with less than `cooldownSeconds`
elapsed) gets RateLimited (429) carrying both the remaining cooldown
seconds and the current global rate, the state unchanged in both
cases. -/
theorem c3_unknown_and_cooldown_responses (st : SysState) (req : Req) (t : Nat) (c : Client)
    (hf : firstMissing (requiredFieldsFor RequestFor.pixelUpdate) req = none) :
    (lookupClient st ((getField req "id").getD JVal.jNull) = none →
       validate_PG_request RequestFor.pixelUpdate req st = (some unauthorizedResp, st))
    ∧ (lookupClient st ((getField req "id").getD JVal.jNull) = some c →
       c.lastAdmittedAt = some t →
       st.now - t < st.board.cooldownSeconds →
       validate_PG_request RequestFor.pixelUpdate req st
         = (some (rateLimitedResp st.board.cooldownSeconds
             ((st.board.cooldownSeconds - (st.now - t) : Nat) : Int)), st)) := by
  constructor
  · intro hl
    unfold validate_PG_request
    simp only [hf]
    simp [use_server, hl]
  · intro hl hla hlt
    unfold validate_PG_request
    simp only [hf]
    have hnle : ¬ st.board.cooldownSeconds ≤ st.now - t := Nat.not_le.mpr hlt
    have h1 : ¬ ((((st.board.cooldownSeconds - (st.now - t) : Nat)) : Int) < 0) := by omega
    have h2 : (((st.board.cooldownSeconds - (st.now - t) : Nat)) : Int) ≠ 0 := by omega
    simp [use_server, hl, hla, hnle, h1, h2, get_pixel_rate]

/-- Concrete state for C3: client "7" was admitted at 98; the clock
reads 100 and the rate is 5, so 3 seconds remain. -/
def c3St : SysState :=
  { registry := [(JVal.jStr "7", { wClient with lastAdmittedAt := some 98 })],
    board := wBoard, now := 100, nextId := 1 }

/-- Concrete pixel-update request from the cooling-down client "7". -/
def c3Req : Req :=
  [("row", JVal.jInt 0), ("col", JVal.jInt 0), ("color", JVal.jStr "red"),
   ("id", JVal.jStr "7")]

/-- Concrete pixel-update request from the unknown client "9". -/
def c3ReqUnknown : Req :=
  [("row", JVal.jInt 0), ("col", JVal.jInt 0), ("color", JVal.jStr "red"),
   ("id", JVal.jStr "9")]

/-- Witness for C3: the unknown id gets the 401 response, the
cooling-down one the 429 response with remaining 3 and rate 5. -/
theorem c3_witness :
    validate_PG_request RequestFor.pixelUpdate c3ReqUnknown c3St = (some unauthorizedResp, c3St)
    ∧ validate_PG_request RequestFor.pixelUpdate c3Req c3St
        = (some (rateLimitedResp 5 3), c3St) :=
  ⟨(c3_unknown_and_cooldown_responses c3St c3ReqUnknown 0 wClient (by decide)).1 (by decide),
   (c3_unknown_and_cooldown_responses c3St c3Req 98
       { wClient with lastAdmittedAt := some 98 } (by decide)).2
     (by decide) (by decide) (by decide)⟩

/-- A board update whose coordinates fall outside the grid, or whose
color is not in the palette, fails with `OutOfRange`. -/
theorem update_out_of_range (b : BoardState) (row col : Int) (color author : JVal)
    (h : outOfRange b row col color = true) :
    update_current_board b row col color author = Except.error "OutOfRange" := by
  unfold update_current_board
  cases color with
  | jStr s => simp [h]
  | jNull => rfl
  | jBool bb => rfl
  | jInt n => rfl
  | jMatrix m => rfl

/-- A passing validation is literally the pair `(none, its own state)`. -/
theorem validate_eq_pair (rf : RequestFor) (req : Req) (st : SysState)
    (h : (validate_PG_request rf req st).1 = none) :
    validate_PG_request rf req st = (none, (validate_PG_request rf req st).2) := by
  rcases hv : validate_PG_request rf req st with ⟨ov, s⟩
  rw [hv] at h
  simp at h
  rw [h]

/-- An admission check leaves the state alone or consumes the client's
cooldown slot; it does nothing else. -/
theorem use_server_state (st : SysState) (id : JVal) (u : Bool) :
    (use_server st id u).2 = st ∨ (use_server st id u).2 = consume st id := by
  unfold use_server
  cases hl : lookupClient st id with
  | none => left; rfl
  | some c =>
    cases hla : c.lastAdmittedAt with
    | none => cases u <;> simp [hla]
    | some t =>
      by_cases hc2 : st.board.cooldownSeconds ≤ st.now - t
      · cases u <;> simp [hla, hc2]
      · simp [hla, hc2]

/-- The whole validation step leaves the state alone or consumes the
requesting client's cooldown slot; it does nothing else. -/
theorem validate_state_cases (rf : RequestFor) (req : Req) (st : SysState) :
    (validate_PG_request rf req st).2 = st ∨
    (validate_PG_request rf req st).2 = consume st ((getField req "id").getD JVal.jNull) := by
  unfold validate_PG_request
  cases hf : firstMissing (requiredFieldsFor rf) req with
  | some f => left; rfl
  | none =>
    simp only [hf]
    cases rf with
    | pixelUpdate =>
      by_cases h1 : (use_server st ((getField req "id").getD JVal.jNull) true).1 < 0
      · simpa [h1] using use_server_state st _ true
      · by_cases h2 : (use_server st ((getField req "id").getD JVal.jNull) true).1 = 0
        · simpa [h1, h2] using use_server_state st _ true
        · simpa [h1, h2] using use_server_state st _ true
    | board =>
      left
      by_cases h1 : (use_server st ((getField req "id").getD JVal.jNull) false).1 < 0
      · simp [h1, use_server_no_consume]
      · by_cases h2 : (use_server st ((getField req "id").getD JVal.jNull) false).1 = 0
        · simp [h1, h2, use_server_no_consume]
        · simp [h1, h2, use_server_no_consume]

/-- Validation never changes the board. -/
theorem validate_board_eq (rf : RequestFor) (req : Req) (st : SysState) :
    ((validate_PG_request rf req st).2).board = st.board := by
  rcases validate_state_cases rf req st with h | h
  · rw [h]
  · rw [h, consume_board]

/-- Claim C4 (amended): for every admitted pixel-write request whose integer
row or col falls outside the grid, or whose color is not in the
palette, the apply step fails with `OutOfRange`, but the handler does
not convert the failure: the run escapes as an unhandled internal error
carrying the post-admission state — the caller gets no BadRequest
response, and the cooldown was still consumed. -/
theorem c4_out_of_range_unhandled (st : SysState) (req : Req) (row col : Int)
    (h : (validate_PG_request RequestFor.pixelUpdate req st).1 = none)
    (hrow : pyIntCoerce ((getField req "row").getD JVal.jNull) = some row)
    (hcol : pyIntCoerce ((getField req "col").getD JVal.jNull) = some col)
    (hoob : outOfRange st.board row col ((getField req "color").getD JVal.jNull) = true) :
    PUT_update_pixel st req
      = Except.error ("OutOfRange", (validate_PG_request RequestFor.pixelUpdate req st).2)
    ∧ lastAdmittedOf ((validate_PG_request RequestFor.pixelUpdate req st).2)
        ((getField req "id").getD JVal.jNull) = some st.now := by
  refine ⟨?_, validate_pixelUpdate_consumed st req h⟩
  have hpair := validate_eq_pair RequestFor.pixelUpdate req st h
  have hb := validate_board_eq RequestFor.pixelUpdate req st
  have hu : update_current_board
      ((validate_PG_request RequestFor.pixelUpdate req st).2).board row col
      ((getField req "color").getD JVal.jNull)
      ((get_author_by_id ((validate_PG_request RequestFor.pixelUpdate req st).2)
          ((getField req "id").getD JVal.jNull)).getD JVal.jNull)
      = Except.error "OutOfRange" := by
    rw [hb]
    exact update_out_of_range st.board row col _ _ hoob
  unfold PUT_update_pixel
  rw [hpair]
  simp [hrow, hcol, hu]

/-- Concrete state for C4: client "4" is Ready on the 2x2 board. -/
def c4St : SysState :=
  { registry := [(JVal.jStr "4", wClient)], board := wBoard, now := 20, nextId := 1 }

/-- Concrete admitted-but-out-of-range request: row 5 on a 2x2 grid. -/
def c4Req : Req :=
  [("row", JVal.jInt 5), ("col", JVal.jInt 0), ("color", JVal.jStr "red"),
   ("id", JVal.jStr "4")]

/-- The state after the consuming admission of the C4 run. -/
def c4StAfter : SysState :=
  { c4St with registry := [(JVal.jStr "4", { wClient with lastAdmittedAt := some 20 })] }

/-- Counterexample for C4: the admitted write at row 5 on the 2x2 board
fails the apply step, and no BadRequest reaches the caller: the run
escapes with the unhandled `OutOfRange` error and no response at all —
while the cooldown was already consumed. -/
theorem c4_counterexample :
    PUT_update_pixel c4St c4Req = Except.error ("OutOfRange", c4StAfter)
    ∧ respOf (PUT_update_pixel c4St c4Req) = none
    ∧ lastAdmittedOf c4StAfter (JVal.jStr "4") = some 20 :=
  ⟨by rfl, by decide, by decide⟩

/-- Witness for the amended C4 at the concrete out-of-range run. -/
theorem c4_witness :
    PUT_update_pixel c4St c4Req
      = Except.error ("OutOfRange", (validate_PG_request RequestFor.pixelUpdate c4Req c4St).2) :=
  (c4_out_of_range_unhandled c4St c4Req 5 0 (by decide) (by decide) (by decide) (by decide)).1

/-- The response of a rate-change or remove run, when it did not raise. -/
def respOfPair (r : Except (String × SysState) (Response × SysState)) : Option Response :=
  match r with
  | Except.ok t => some t.1
  | Except.error _ => none

/-- Claim C5 (amended): for every rate-change request carrying a valid admin
token, the handler coerces `new_rate` with Python `int()`: a value that
cannot be coerced makes the run escape with an unhandled ValueError (no
bad-request outcome is returned) and the global rate is left unchanged;
a value coercible to a non-negative integer is applied as the new rate;
a value coercible to a negative integer reaches `change_pixel_rate`,
whose `InvalidArgument` failure likewise escapes unhandled with the
rate unchanged. -/
theorem c5_rate_change_coercion (st : SysState) (tok : String) (req : Req)
    (hf : firstMissing ["new_rate", "token"] req = none)
    (ht : tokenMatches (some tok) ((getField req "token").getD JVal.jNull) = true) :
    (pyIntCoerce ((getField req "new_rate").getD JVal.jNull) = none →
       POST_change_pixel_rate st (some tok) req = Except.error ("ValueError", st))
    ∧ (∀ n : Int, pyIntCoerce ((getField req "new_rate").getD JVal.jNull) = some n →
       0 ≤ n →
       POST_change_pixel_rate st (some tok) req
         = Except.ok ({ status := 200, body := Body.text "Success", headers := [] },
             { st with board := { st.board with cooldownSeconds := n.toNat } }))
    ∧ (∀ n : Int, pyIntCoerce ((getField req "new_rate").getD JVal.jNull) = some n →
       n < 0 →
       POST_change_pixel_rate st (some tok) req = Except.error ("InvalidArgument", st)) := by
  unfold POST_change_pixel_rate
  simp only [hf]
  refine ⟨?_, ?_, ?_⟩
  · intro hn
    simp [ht, hn]
  · intro n hn hge
    have hnl : ¬ n < 0 := not_lt.mpr hge
    simp [ht, hn, change_pixel_rate, hnl]
  · intro n hn hlt
    simp [ht, hn, change_pixel_rate, hlt]

/-- Concrete state for C5 (the registry plays no role). -/
def c5St : SysState :=
  { registry := [], board := wBoard, now := 0, nextId := 0 }

/-- Concrete rate-change request with a valid token and a rate value
`int()` cannot coerce. -/
def c5Req : Req :=
  [("new_rate", JVal.jStr "abc"), ("token", JVal.jStr "tk")]

/-- Counterexample for C5: with the valid admin token and
`new_rate = "abc"`, the run escapes with an unhandled ValueError and
yields no response at all — in particular no InvalidArgument
bad-request outcome — though the rate is indeed left unchanged. -/
theorem c5_counterexample :
    POST_change_pixel_rate c5St (some "tk") c5Req = Except.error ("ValueError", c5St)
    ∧ respOfPair (POST_change_pixel_rate c5St (some "tk") c5Req) = none :=
  ⟨by rfl, by decide⟩

/-- Witness for the amended C5 at the concrete non-coercible rate. -/
theorem c5_witness :
    POST_change_pixel_rate c5St (some "tk") c5Req = Except.error ("ValueError", c5St) :=
  (c5_rate_change_coercion c5St "tk" c5Req (by decide) (by decide)).1 (by decide)

/-- Claim C6: for every board-state fetch, when the fingerprint the caller
presents via If-None-Match matches the board's current fingerprint the
response is the empty-bodied 304 "not modified"; otherwise it is the
full pixel matrix with the current fingerprint in the ETag header. -/
theorem c6_board_fetch_not_modified_or_full (b : BoardState) (inm : INM) :
    (inmContains inm b.hash = true →
       return_board b inm = { status := 304, body := Body.text "", headers := [] })
    ∧ (inmContains inm b.hash = false →
       return_board b inm
         = { status := 200, body := Body.json [("pixels", JVal.jMatrix b.pixels)],
             headers := [("ETag", b.hash)] }) := by
  constructor <;> intro h <;> simp [return_board, h]

/-- Concrete board with a literal fingerprint for the C6 witness. -/
def c6Board : BoardState :=
  { wBoard with hash := "h0" }

/-- An If-None-Match carrying exactly the board's fingerprint. -/
def c6Inm : INM := { star := false, etags := ["h0"] }

/-- An If-None-Match carrying a stale fingerprint. -/
def c6InmStale : INM := { star := false, etags := ["h-old"] }

/-- Witness for C6: the matching fingerprint yields the 304, the stale
one the full matrix with the ETag. -/
theorem c6_witness :
    (inmContains c6Inm c6Board.hash = true ∧
       return_board c6Board c6Inm = { status := 304, body := Body.text "", headers := [] })
    ∧ (inmContains c6InmStale c6Board.hash = false ∧
       return_board c6Board c6InmStale
         = { status := 200, body := Body.json [("pixels", JVal.jMatrix c6Board.pixels)],
             headers := [("ETag", c6Board.hash)] }) :=
  ⟨⟨by decide, (c6_board_fetch_not_modified_or_full c6Board c6Inm).1 (by decide)⟩,
   ⟨by decide, (c6_board_fetch_not_modified_or_full c6Board c6InmStale).2 (by decide)⟩⟩

/-- A board-read validation never changes the state at all: its
admission check runs with `updateTimeout = false`. -/
theorem validate_board_read_state (req : Req) (st : SysState) :
    (validate_PG_request RequestFor.board req st).2 = st := by
  unfold validate_PG_request
  cases hf : firstMissing (requiredFieldsFor RequestFor.board) req with
  | some f => rfl
  | none =>
    simp only [hf]
    by_cases h1 : (use_server st ((getField req "id").getD JVal.jNull) false).1 < 0
    · simp [h1, use_server_no_consume]
    · by_cases h2 : (use_server st ((getField req "id").getD JVal.jNull) false).1 = 0
      · simp [h1, h2, use_server_no_consume]
      · simp [h1, h2, use_server_no_consume]

/-- Claim C7: the admission-checked board fetch runs its admission check
without consuming: the whole run leaves the state (in particular every
client's `lastAdmittedAt`) untouched, while an unknown client id is
still rejected with the Unauthorized response. -/
theorem c7_read_admission_no_consume (st : SysState) (req : Req) (inm : INM) :
    (GET_pixels st req inm).2 = st
    ∧ (firstMissing (requiredFieldsFor RequestFor.board) req = none →
       lookupClient st ((getField req "id").getD JVal.jNull) = none →
       (GET_pixels st req inm).1 = unauthorizedResp) := by
  constructor
  · unfold GET_pixels
    have hs := validate_board_read_state req st
    rcases hv : validate_PG_request RequestFor.board req st with ⟨ov, st1⟩
    rw [hv] at hs
    simp at hs
    cases ov <;> simp [hs]
  · intro hf hl
    unfold GET_pixels
    have hval : validate_PG_request RequestFor.board req st = (some unauthorizedResp, st) := by
      unfold validate_PG_request
      simp only [hf]
      simp [use_server, hl]
    rw [hval]

/-- Concrete state for C7: client "7" is registered and Ready. -/
def c7St : SysState :=
  { registry := [(JVal.jStr "7", wClient)], board := c6Board, now := 40, nextId := 1 }

/-- Concrete board-read request from the known client "7". -/
def c7Req : Req := [("id", JVal.jStr "7")]

/-- Concrete board-read request from the unknown client "9". -/
def c7ReqUnknown : Req := [("id", JVal.jStr "9")]

/-- Witness for C7: the known client's read leaves the state untouched
(no cooldown slot spent), the unknown one is rejected. -/
theorem c7_witness :
    (GET_pixels c7St c7Req c6InmStale).2 = c7St
    ∧ (GET_pixels c7St c7ReqUnknown c6InmStale).1 = unauthorizedResp :=
  ⟨(c7_read_admission_no_consume c7St c7Req c6InmStale).1,
   (c7_read_admission_no_consume c7St c7ReqUnknown c6InmStale).2 (by decide) (by decide)⟩

/-- The status of the pixel-update run's response, when it did not raise. -/
def statusOfUpdate (r : Except (String × SysState) (Response × Option Emit × SysState)) :
    Option Nat :=
  (respOf r).map Response.status

/-- The status of a rate-change or remove run's response, when it did
not raise. -/
def statusOfPair (r : Except (String × SysState) (Response × SysState)) : Option Nat :=
  (respOfPair r).map Response.status

/-- Claim C8 (amended): register, pixel write, admission-checked board fetch
and rate change each answer a missing required field with a 400
BadRequest response; the remove operation alone performs no field
check — a request without `id` escapes as an unhandled KeyError instead
of a BadRequest. -/
theorem c8_missing_field_behaviour (st : SysState) (sec : SecretsList) (tok : Option String)
    (req : Req) (inm : INM) :
    (firstMissing ["name", "author", "secret"] req ≠ none →
       (PUT_register_pg st sec req).1.status = 400)
    ∧ (firstMissing (requiredFieldsFor RequestFor.pixelUpdate) req ≠ none →
       statusOfUpdate (PUT_update_pixel st req) = some 400)
    ∧ (hasField req "id" = false →
       (GET_pixels st req inm).1.status = 400)
    ∧ (firstMissing ["new_rate", "token"] req ≠ none →
       statusOfPair (POST_change_pixel_rate st tok req) = some 400)
    ∧ (hasField req "id" = false →
       DELETE_remove_pg st req = Except.error ("KeyError: id", st)) := by
  refine ⟨?_, ?_, ?_, ?_, ?_⟩
  · intro h
    cases hf : firstMissing ["name", "author", "secret"] req with
    | none => exact absurd hf h
    | some f => simp [PUT_register_pg, hf, badRequestResp]
  · intro h
    cases hf : firstMissing (requiredFieldsFor RequestFor.pixelUpdate) req with
    | none => exact absurd hf h
    | some f =>
      unfold PUT_update_pixel validate_PG_request
      simp [hf, statusOfUpdate, respOf, badRequestResp]
  · intro h
    have hf : firstMissing (requiredFieldsFor RequestFor.board) req = some "id" := by
      simp [firstMissing, requiredFieldsFor, h]
    unfold GET_pixels validate_PG_request
    simp [hf, badRequestResp]
  · intro h
    cases hf : firstMissing ["new_rate", "token"] req with
    | none => exact absurd hf h
    | some f =>
      unfold POST_change_pixel_rate
      simp [hf, statusOfPair, respOfPair, badRequestResp]
  · intro h
    unfold DELETE_remove_pg
    unfold hasField at h
    cases hg : getField req "id" with
    | none => simp [hg]
    | some v => rw [hg] at h; simp at h

/-- Concrete state for C8. -/
def c8St : SysState :=
  { registry := [(JVal.jStr "8", wClient)], board := wBoard, now := 0, nextId := 1 }

/-- The empty request, missing every field. -/
def c8EmptyReq : Req := []

/-- Counterexample for C8: a remove request with no `id` field does not get
a BadRequest — the handler raises an unhandled KeyError and produces no
response at all. -/
theorem c8_counterexample :
    DELETE_remove_pg c8St c8EmptyReq = Except.error ("KeyError: id", c8St)
    ∧ respOfPair (DELETE_remove_pg c8St c8EmptyReq) = none :=
  ⟨by rfl, by decide⟩

/-- Witness for the amended C8 on the empty request. -/
theorem c8_witness :
    (PUT_register_pg c8St none c8EmptyReq).1.status = 400
    ∧ statusOfUpdate (PUT_update_pixel c8St c8EmptyReq) = some 400
    ∧ (GET_pixels c8St c8EmptyReq c6InmStale).1.status = 400
    ∧ statusOfPair (POST_change_pixel_rate c8St none c8EmptyReq) = some 400
    ∧ DELETE_remove_pg c8St c8EmptyReq = Except.error ("KeyError: id", c8St) :=
  have h := c8_missing_field_behaviour c8St none none c8EmptyReq c6InmStale
  ⟨h.1 (by decide), h.2.1 (by decide), h.2.2.1 (by decide),
   h.2.2.2.1 (by decide), h.2.2.2.2 (by decide)⟩

/-- The secret gate fires exactly when a non-empty allow-list was
loaded and the presented secret is not in it — Python truthiness makes
an empty loaded list behave like an absent one. -/
theorem secretRejected_iff (sec : SecretsList) (v : JVal) :
    secretRejected sec v = true ↔
      ∃ l, sec = some l ∧ l ≠ [] ∧ secretMem v l = false := by
  cases sec with
  | none => simp [secretRejected]
  | some l =>
    simp only [secretRejected, Bool.and_eq_true, Bool.not_eq_true]
    constructor
    · rintro ⟨h1, h2⟩
      refine ⟨l, rfl, ?_, ?_⟩
      · intro hnil
        rw [hnil] at h1
        simp at h1
      · simpa using h2
    · rintro ⟨l2, hl2, hnil, hmem⟩
      cases hl2
      refine ⟨?_, ?_⟩
      · simp [List.isEmpty_iff, hnil]
      · simpa using hmem

/-- Claim C9 (amended): for a registration request with all fields present,
it is rejected with Unauthorized (401) if and only if a NON-EMPTY
secrets allow-list was loaded at startup and the supplied secret is not
in it; when the allow-list is absent — or loaded but empty, which
Python truthiness treats the same — every secret value is accepted and
a client is registered. -/
theorem c9_secret_gate (st : SysState) (sec : SecretsList) (req : Req)
    (hf : firstMissing ["name", "author", "secret"] req = none) :
    ((PUT_register_pg st sec req).1.status = 401 ↔
       ∃ l, sec = some l ∧ l ≠ [] ∧
         secretMem ((getField req "secret").getD JVal.jNull) l = false)
    ∧ (secretRejected sec ((getField req "secret").getD JVal.jNull) = false →
       (PUT_register_pg st sec req).1.status = 200 ∧
       (PUT_register_pg st sec req).2.registry.length = st.registry.length + 1) := by
  have hchar := secretRejected_iff sec ((getField req "secret").getD JVal.jNull)
  by_cases hr : secretRejected sec ((getField req "secret").getD JVal.jNull) = true
  · constructor
    · refine iff_of_true ?_ (hchar.mp hr)
      simp [PUT_register_pg, hf, hr]
    · intro hfalse
      rw [hr] at hfalse
      cases hfalse
  · have hrf : secretRejected sec ((getField req "secret").getD JVal.jNull) = false :=
      Bool.eq_false_iff.mpr hr
    constructor
    · refine iff_of_false ?_ ?_
      · simp [PUT_register_pg, hf, hrf, add_server]
      · intro hex
        exact hr (hchar.mpr hex)
    · intro _
      constructor
      · simp [PUT_register_pg, hf, hrf, add_server]
      · simp [PUT_register_pg, hf, hrf, add_server]

/-- Concrete state for C9: nothing registered yet. -/
def c9St : SysState :=
  { registry := [], board := wBoard, now := 0, nextId := 0 }

/-- Concrete registration request with secret "x". -/
def c9Req : Req :=
  [("name", JVal.jStr "n"), ("author", JVal.jStr "a"), ("secret", JVal.jStr "x")]

/-- Counterexample for C9: the allow-list IS loaded (it is `some []`) and
the secret "x" is not in it, yet registration succeeds with a 200 and a
fresh client — refuting the claimed "if and only if", which demands a
401 here. -/
theorem c9_counterexample :
    some ([] : List String) ≠ (none : SecretsList)
    ∧ secretMem (JVal.jStr "x") [] = false
    ∧ (PUT_register_pg c9St (some []) c9Req).1.status = 200
    ∧ (PUT_register_pg c9St (some []) c9Req).2.registry.length = 1 := by
  refine ⟨by decide, by decide, ?_, ?_⟩ <;> rfl

/-- Witness for the amended C9: with the absent allow-list the request
is not rejected and a client is registered; with a non-empty list not
containing the secret, the 401 fires. -/
theorem c9_witness :
    ((PUT_register_pg c9St none c9Req).1.status = 200
      ∧ (PUT_register_pg c9St none c9Req).2.registry.length = 1)
    ∧ (PUT_register_pg c9St (some ["y"]) c9Req).1.status = 401 :=
  ⟨(c9_secret_gate c9St none c9Req (by decide)).2 (by decide),
   (c9_secret_gate c9St (some ["y"]) c9Req (by decide)).1.mpr
     ⟨["y"], rfl, by decide, by decide⟩⟩

/-- Claim C10: the frontend board fetch takes no client id and runs no
admission check: for every state — whatever the registry holds, even
nothing — it returns exactly what `return_board` says (the 304, or the
full matrix with the ETag) and leaves the state untouched. -/
theorem c10_frontend_fetch_no_admission (st : SysState) (inm : INM) :
    GET_frontend_pixels st inm = (return_board st.board inm, st)
    ∧ ((GET_frontend_pixels st inm).1
         = { status := 304, body := Body.text "", headers := [] }
       ∨ (GET_frontend_pixels st inm).1
         = { status := 200, body := Body.json [("pixels", JVal.jMatrix st.board.pixels)],
             headers := [("ETag", st.board.hash)] }) := by
  refine ⟨rfl, ?_⟩
  by_cases h : inmContains inm st.board.hash = true
  · left
    simp [GET_frontend_pixels, return_board, h]
  · right
    simp only [Bool.not_eq_true] at h
    simp [GET_frontend_pixels, return_board, h]

end PixelBoard
